import Mathlib

/-!
Verification of the CIM topology model (`cim_topology.py`).

The Python module is embedded shallowly: dataclasses become structures,
`Dict` becomes an insertion-ordered association list, `set` becomes a
duplicate-free list, and the two `datetime.utcnow()` reads inside
`CimEvent.create` become two explicit timestamp parameters.  SHA-256 and
the canonical `json.dumps(..., sort_keys=True)` serialization are
implemented executably so that content-addresses can be computed inside
proofs.
-/

namespace CimNet

/-! ## SHA-256 (bytes are `Nat` values < 256, words are `Nat` values < 2^32) -/

def mask32 (x : Nat) : Nat := x % 4294967296

def rotr (n x : Nat) : Nat := mask32 ((x >>> n) ||| (x <<< (32 - n)))

/-- The 64 SHA-256 round constants (decimal). -/
def shaK : List Nat :=
  [1116352408, 1899447441, 3049323471, 3921009573, 961987163, 1508970993,
   2453635748, 2870763221, 3624381080, 310598401, 607225278, 1426881987,
   1925078388, 2162078206, 2614888103, 3248222580, 3835390401, 4022224774,
   264347078, 604807628, 770255983, 1249150122, 1555081692, 1996064986,
   2554220882, 2821834349, 2952996808, 3210313671, 3336571891, 3584528711,
   113926993, 338241895, 666307205, 773529912, 1294757372, 1396182291,
   1695183700, 1986661051, 2177026350, 2456956037, 2730485921, 2820302411,
   3259730800, 3345764771, 3516065817, 3600352804, 4094571909, 275423344,
   430227734, 506948616, 659060556, 883997877, 958139571, 1322822218,
   1537002063, 1747873779, 1955562222, 2024104815, 2227730452, 2361852424,
   2428436474, 2756734187, 3204031479, 3329325298]

/-- The eight SHA-256 initial hash values (decimal). -/
def shaH0 : List Nat :=
  [1779033703, 3144134277, 1013904242, 2773480762, 1359893119, 2600822924,
   528734635, 1541459225]

/-- Four big-endian bytes to one 32-bit word, for a whole 64-byte block. -/
def toWords : List Nat → List Nat
  | a :: b :: c :: d :: rest => (((a * 256 + b) * 256 + c) * 256 + d) :: toWords rest
  | _ => []

/-- One message-schedule extension step: append word `w[n]` computed from
`w[n-16]`, `w[n-15]`, `w[n-7]`, `w[n-2]`. -/
def schedStep (w : List Nat) : List Nat :=
  let n := w.length
  let g := fun (k : Nat) => w.getD (n - k) 0
  let x0 := g 15
  let s0 := (rotr 7 x0) ^^^ (rotr 18 x0) ^^^ (x0 >>> 3)
  let x1 := g 2
  let s1 := (rotr 17 x1) ^^^ (rotr 19 x1) ^^^ (x1 >>> 10)
  w ++ [mask32 (g 16 + s0 + g 7 + s1)]

/-- One compression round on the 8-word working state. -/
def compressRound (st : List Nat) (w k : Nat) : List Nat :=
  match st with
  | [a, b, c, d, e, f, g, h] =>
    let s1 := (rotr 6 e) ^^^ (rotr 11 e) ^^^ (rotr 25 e)
    let ch := (e &&& f) ^^^ ((4294967295 ^^^ e) &&& g)
    let t1 := mask32 (h + s1 + ch + k + w)
    let s0 := (rotr 2 a) ^^^ (rotr 13 a) ^^^ (rotr 22 a)
    let mj := (a &&& b) ^^^ (a &&& c) ^^^ (b &&& c)
    let t2 := mask32 (s0 + mj)
    [mask32 (t1 + t2), a, b, c, mask32 (d + t1), e, f, g]
  | other => other

def processBlock (hs : List Nat) (block : List Nat) : List Nat :=
  let ws := (List.range 48).foldl (fun w _ => schedStep w) (toWords block)
  let st := (ws.zip shaK).foldl (fun st wk => compressRound st wk.1 wk.2) hs
  (hs.zip st).map (fun p => mask32 (p.1 + p.2))

/-- Split into 64-byte blocks; `fuel` bounds the recursion (pass the length). -/
def chunks : Nat → List Nat → List (List Nat)
  | _, [] => []
  | 0, _ => []
  | fuel + 1, l => l.take 64 :: chunks fuel (l.drop 64)

/-- SHA-256 of a byte sequence, as eight 32-bit words. -/
def sha256words (msg : List Nat) : List Nat :=
  let l := msg.length
  let padZeros := List.replicate ((119 - l % 64) % 64) 0
  let lenBytes := (List.range 8).map (fun i => ((8 * l) >>> (8 * (7 - i))) % 256)
  let padded := msg ++ 128 :: (padZeros ++ lenBytes)
  (chunks padded.length padded).foldl processBlock shaH0

def hexChar (n : Nat) : Char := Char.ofNat (if n < 10 then 48 + n else 87 + n)

def hex8 (x : Nat) : String :=
  String.mk ((List.range 8).map (fun i => hexChar ((x >>> (4 * (7 - i))) % 16)))

/-- Lowercase hex digest, mirroring Python `hashlib.sha256(b).hexdigest()`. -/
def sha256hex (msg : List Nat) : String := String.join ((sha256words msg).map hex8)

/-- UTF-8 bytes of an ASCII string (all strings hashed here are ASCII,
since the canonical serializer escapes everything else). -/
def strBytes (s : String) : List Nat := s.data.map (fun c => c.toNat)

/-! ## Canonical JSON serialization (`json.dumps(..., sort_keys=True)`)

Python default separators are `", "` and `": "`, `ensure_ascii=True`
escapes every character outside printable ASCII.  Payload dictionaries
(`Dict[str, Any]`) are modelled as flat string-keyed maps whose values
are strings, numbers or `None` — the only shapes the repository uses. -/

inductive JsonVal where
  | jstr (s : String)
  | jnum (n : Nat)
  | jnull
deriving DecidableEq

/-- A Python `dict` in insertion order. -/
abbrev JObj : Type := List (String × JsonVal)

def hex4 (n : Nat) : String :=
  String.mk ((List.range 4).map (fun i => hexChar ((n >>> (4 * (3 - i))) % 16)))

/-- Escape one character the way `json.dumps` with `ensure_ascii=True` does. -/
def escapeChar (c : Char) : String :=
  let n := c.toNat
  if n = 34 then "\\\x22"
  else if n = 92 then "\\\\"
  else if n = 8 then "\\b"
  else if n = 9 then "\\t"
  else if n = 10 then "\\n"
  else if n = 12 then "\\f"
  else if n = 13 then "\\r"
  else if n < 32 || n > 126 then
    if n < 65536 then "\\u" ++ hex4 n
    else "\\u" ++ hex4 (55296 + (n - 65536) / 1024) ++ "\\u" ++ hex4 (56320 + (n - 65536) % 1024)
  else String.singleton c

def jstring (s : String) : String :=
  "\x22" ++ String.join (s.data.map escapeChar) ++ "\x22"

def dumpVal : JsonVal → String
  | .jstr s => jstring s
  | .jnum n => toString n
  | .jnull => "null"

/-- Insert into a key-sorted list of pairs (insertion step of a sort). -/
def insortPair (x : String × JsonVal) : List (String × JsonVal) → List (String × JsonVal)
  | [] => [x]
  | y :: ys => if x.1 < y.1 then x :: y :: ys else y :: insortPair x ys

/-- `json.dumps(obj, sort_keys=True)` for a flat dictionary. -/
def dumpObj (o : JObj) : String :=
  let sorted := List.foldr insortPair [] o
  "\x7b" ++ String.intercalate (", ") (sorted.map (fun kv => jstring kv.1 ++ ": " ++ dumpVal kv.2)) ++ "\x7d"

/-! ## Identifiers, tiers, client kinds -/

structure ClientId where
  value : String
deriving DecidableEq

structure LeafId where
  value : String
deriving DecidableEq

structure ClusterId where
  value : String
deriving DecidableEq

structure SuperClusterId where
  value : String
deriving DecidableEq

structure TopologyId where
  value : String
deriving DecidableEq

structure CorrelationId where
  value : String
deriving DecidableEq

structure CausationId where
  value : String
deriving DecidableEq

structure Cid where
  value : String
deriving DecidableEq

inductive CimTier where
  | client
  | leaf
  | cluster
  | super_cluster
deriving DecidableEq

/-- The Python `Enum` member's `.value`. -/
def tierValue : CimTier → String
  | .client => "client"
  | .leaf => "leaf"
  | .cluster => "cluster"
  | .super_cluster => "super_cluster"

inductive ClientType where
  | developer
  | application
  | service
  | browser
  | cli
deriving DecidableEq

/-! ## Ordered dictionaries and sets

A Python 3.7+ `dict` preserves insertion order; assignment to an existing
key keeps its position.  A Python `set` is modelled as a duplicate-free
list (`add` appends when absent). -/

def alookup {α β : Type} [DecidableEq α] : List (α × β) → α → Option β
  | [], _ => none
  | kv :: rest, k => if kv.1 = k then some kv.2 else alookup rest k

def acontains {α β : Type} [DecidableEq α] (d : List (α × β)) (k : α) : Bool :=
  (alookup d k).isSome

/-- `d[k] = v`: update in place when the key is present, else append. -/
def aset {α β : Type} [DecidableEq α] (d : List (α × β)) (k : α) (v : β) : List (α × β) :=
  if acontains d k then d.map (fun kv => if kv.1 = k then (k, v) else kv) else d ++ [(k, v)]

/-- Mutate the value stored at key `k` (no-op when absent). -/
def amodify {α β : Type} [DecidableEq α] (d : List (α × β)) (k : α) (f : β → β) : List (α × β) :=
  d.map (fun kv => if kv.1 = k then (kv.1, f kv.2) else kv)

/-- Python `set.add`. -/
def sadd {α : Type} [DecidableEq α] (s : List α) (a : α) : List α :=
  if a ∈ s then s else s ++ [a]

/-! ## VectorClock -/

structure VectorClock where
  clocks : List (String × Nat)
deriving DecidableEq

/-- `self.clocks.get(node_id, 0)`. -/
def VectorClock.get (vc : VectorClock) (node_id : String) : Nat :=
  (alookup vc.clocks node_id).getD 0

/-- `tick`: `self.clocks[node_id] = self.clocks.get(node_id, 0) + 1`. -/
def VectorClock.tick (vc : VectorClock) (node_id : String) : VectorClock :=
  ⟨aset vc.clocks node_id (vc.get node_id + 1)⟩

/-- `update`: for each entry of `other`, take the pointwise maximum. -/
def VectorClock.update (vc : VectorClock) (other : VectorClock) : VectorClock :=
  ⟨other.clocks.foldl (fun cl nc => aset cl nc.1 (max ((alookup cl nc.1).getD 0) nc.2)) vc.clocks⟩

/-! ## CimEvent

`CimEvent.create` reads the wall clock twice: once (`now1`) inside the
hashed `content` dictionary via `datetime.utcnow().isoformat()`, and once
more (`now2`) for the stored `timestamp` field.  Both reads, and the two
`uuid4()` draws for the optional correlation/causation ids, are explicit
parameters here.  A `datetime` is modelled by its ISO-8601 rendering,
which is injective on instants. -/

structure CimEvent where
  event_cid : Cid
  previous_cid : Option Cid
  correlation_id : CorrelationId
  causation_id : CausationId
  source_tier : CimTier
  node_id : String
  payload : JObj
  timestamp : String
  vector_clock : VectorClock

/-- The `content` dictionary of `CimEvent.create`, serialized by
`json.dumps(content, sort_keys=True)` (keys in sorted order:
`node_id`, `payload`, `previous_cid`, `source_tier`, `timestamp`). -/
def canonContent (payload : JObj) (source_tier : CimTier) (node_id : String)
    (timestamp_iso : String) (previous_cid : Option Cid) : String :=
  "\x7b\x22node_id\x22: " ++ jstring node_id ++
  ", \x22payload\x22: " ++ dumpObj payload ++
  ", \x22previous_cid\x22: " ++ (match previous_cid with
    | some c => jstring c.value
    | none => "null") ++
  ", \x22source_tier\x22: " ++ jstring (tierValue source_tier) ++
  ", \x22timestamp\x22: " ++ jstring timestamp_iso ++ "\x7d"

def CimEvent.create (payload : JObj) (source_tier : CimTier) (node_id : String)
    (previous_cid : Option Cid) (correlation_id : Option CorrelationId)
    (causation_id : Option CausationId)
    (now1 now2 freshCorr freshCaus : String) : CimEvent :=
  let event_cid := Cid.mk (sha256hex (strBytes (canonContent payload source_tier node_id now1 previous_cid)))
  { event_cid := event_cid
    previous_cid := previous_cid
    correlation_id := correlation_id.getD (CorrelationId.mk freshCorr)
    causation_id := causation_id.getD (CausationId.mk freshCaus)
    source_tier := source_tier
    node_id := node_id
    payload := payload
    timestamp := now2
    vector_clock := ⟨[]⟩ }

/-- Recompute the content-address from the stored fields of an event (the
canonical serialization of payload, tier value, node id, stored timestamp
in ISO form, previous address, then SHA-256). -/
def recomputeCid (e : CimEvent) : Cid :=
  Cid.mk (sha256hex (strBytes (canonContent e.payload e.source_tier e.node_id e.timestamp e.previous_cid)))

/-! ## NATS configuration records -/

structure NatsSecurityConfig where
  tls_enabled : Bool := true
  auth_required : Bool := true
  jwt_enabled : Bool := true
  nkeys_enabled : Bool := true
deriving DecidableEq

structure NatsGatewayConfig where
  name : String
  host : String
  port : Nat := 7222
  tls : Bool := true
  authorization : JObj := []
deriving DecidableEq

structure NatsClusterConfig where
  name : String
  routes : List String := []
  cluster_port : Nat := 6222
  jetstream : Bool := true
deriving DecidableEq

structure NatsLeafConfig where
  name : String
  remotes : List String := []
  leaf_port : Nat := 7422
deriving DecidableEq

structure JetStreamConfig where
  enabled : Bool := true
  max_memory : String := "1GB"
  max_file : String := "10GB"
  store_dir : String := "/var/lib/nats/jetstream"
deriving DecidableEq

structure NatsLatticeConfig where
  gateways : List NatsGatewayConfig := []
  clusters : List NatsClusterConfig := []
  leaves : List NatsLeafConfig := []
  jetstream : JetStreamConfig := {}
  security : NatsSecurityConfig := {}
deriving DecidableEq

def NatsLatticeConfig.development : NatsLatticeConfig :=
  { clusters := [{ name := "dev-cluster" }]
    leaves := [{ name := "dev-leaf", remotes := ["nats://localhost:4222"] }]
    jetstream := { max_memory := "256MB", max_file := "1GB", store_dir := "/tmp/nats-dev" } }

def NatsLatticeConfig.production : NatsLatticeConfig :=
  { gateways := [{ name := "super-gateway", host := "0.0.0.0" }]
    clusters := [{ name := "primary-cluster",
                   routes := ["nats://cluster1:6222", "nats://cluster2:6222"] }]
    jetstream := { max_memory := "8GB", max_file := "100GB" } }

/-! ## Tier configuration records -/

structure ClientConfig where
  client_id : ClientId
  name : String
  client_type : ClientType
  assigned_leaf : LeafId
  auth_config : JObj := []
  rate_limits : JObj := []
deriving DecidableEq

structure LeafConfig where
  leaf_id : LeafId
  name : String
  cluster : ClusterId
  nats_leaf : NatsLeafConfig
  event_store_config : JObj := []
  assigned_clients : List ClientId := []
  resource_limits : JObj := []
deriving DecidableEq

structure ClusterConfig where
  cluster_id : ClusterId
  name : String
  domain : String
  super_cluster : SuperClusterId
  nats_cluster : NatsClusterConfig
  managed_leaves : List LeafId := []
  saga_definitions : JObj := []
  projection_configs : List JObj := []
deriving DecidableEq

structure SuperClusterConfig where
  super_id : SuperClusterId
  name : String
  nats_gateway : NatsGatewayConfig
  managed_clusters : List ClusterId := []
  global_projections : List JObj := []
  orchestration_rules : List JObj := []
deriving DecidableEq

/-! ## Topology aggregate and read side -/

structure CimTopology where
  topology_id : TopologyId
  super_clusters : List (SuperClusterId × SuperClusterConfig) := []
  clusters : List (ClusterId × ClusterConfig) := []
  leaves : List (LeafId × LeafConfig) := []
  clients : List (ClientId × ClientConfig) := []
  nats_config : NatsLatticeConfig := {}
  genesis_cid : Cid := Cid.mk ("genesis")
  version : Nat := 0
deriving DecidableEq

structure HierLeaf where
  name : String
  clients : List String
deriving DecidableEq

structure HierCluster where
  name : String
  domain : String
  leaves : List (String × HierLeaf)
deriving DecidableEq

structure HierSuper where
  name : String
  clusters : List (String × HierCluster)
deriving DecidableEq

/-- The `leaves` sub-dictionary of one cluster entry in
`_build_hierarchy_view`: a managed leaf id missing from `self.leaves`
is skipped (`if leaf_id in self.leaves`). -/
def mkHierLeafEntries (t : CimTopology) (cc : ClusterConfig) : List (String × HierLeaf) :=
  cc.managed_leaves.foldl (fun ls leaf_id =>
    match alookup t.leaves leaf_id with
    | some lc => aset ls leaf_id.value ⟨lc.name, lc.assigned_clients.map (fun c => c.value)⟩
    | none => ls) []

/-- The `clusters` sub-dictionary of one super-cluster entry: a managed
cluster id missing from `self.clusters` is skipped
(`if cluster_id in self.clusters`). -/
def mkHierClusters (t : CimTopology) (sc : SuperClusterConfig) : List (String × HierCluster) :=
  sc.managed_clusters.foldl (fun cs cluster_id =>
    match alookup t.clusters cluster_id with
    | some cc => aset cs cluster_id.value ⟨cc.name, cc.domain, mkHierLeafEntries t cc⟩
    | none => cs) []

/-- `_build_hierarchy_view`: `{}` when there is no super-cluster (the
`"super_clusters"` key is only `setdefault`-ed inside the loop), else the
`"super_clusters"` dictionary keyed by super-cluster id value. -/
def buildHierarchyView (t : CimTopology) : Option (List (String × HierSuper)) :=
  if t.super_clusters.isEmpty then none
  else some (t.super_clusters.foldl (fun h sp =>
    aset h sp.1.value ⟨sp.2.name, mkHierClusters t sp.2⟩) [])

structure TierCounts where
  super_clusters : Nat
  clusters : Nat
  leaves : Nat
  clients : Nat
deriving DecidableEq

structure TierSummary where
  topology_id : String
  version : Nat
  tiers : TierCounts
  hierarchy : Option (List (String × HierSuper))
deriving DecidableEq

def CimTopology.get_tier_summary (t : CimTopology) : TierSummary :=
  { topology_id := t.topology_id.value
    version := t.version
    tiers := ⟨t.super_clusters.length, t.clusters.length, t.leaves.length, t.clients.length⟩
    hierarchy := buildHierarchyView t }

/-! ## Topology builder

`uuid4()` draws (the fresh topology id in `__init__`, the fresh client id
in `with_client`) are explicit parameters.  `with_client` returns the
error message of the raised `ValueError` (if any) together with the
builder; the `raise` in the source happens before any mutation, so the
failing branch returns the builder unchanged. -/

structure CimTopologyBuilder where
  topology : CimTopology
deriving DecidableEq

/-- Python `str.title()` (ASCII inputs): uppercase a letter that follows a
non-letter, lowercase a letter that follows a letter. -/
def pyTitle (s : String) : String :=
  String.mk (s.data.foldl (fun acc c =>
    (acc.1 ++ [if acc.2 then c.toLower else c.toUpper], c.isAlpha)) (([] : List Char), false)).1

def CimTopologyBuilder.development (tid : TopologyId) (name : String) : CimTopologyBuilder :=
  let super_id := SuperClusterId.mk ("dev-super")
  let super_config : SuperClusterConfig :=
    { super_id := super_id
      name := name ++ " Development Super-cluster"
      nats_gateway := { name := "dev-gateway", host := "localhost" } }
  let cluster_id := ClusterId.mk ("dev-cluster")
  let cluster_config : ClusterConfig :=
    { cluster_id := cluster_id
      name := name ++ " Development Cluster"
      domain := "development"
      super_cluster := super_id
      nats_cluster := { name := "dev-cluster" } }
  let leaf_id := LeafId.mk ("dev-leaf")
  let leaf_config : LeafConfig :=
    { leaf_id := leaf_id
      name := name ++ " Development Leaf"
      cluster := cluster_id
      nats_leaf := { name := "dev-leaf" } }
  let super_config := { super_config with managed_clusters := sadd super_config.managed_clusters cluster_id }
  let cluster_config := { cluster_config with managed_leaves := sadd cluster_config.managed_leaves leaf_id }
  ⟨{ topology_id := tid
     super_clusters := aset [] super_id super_config
     clusters := aset [] cluster_id cluster_config
     leaves := aset [] leaf_id leaf_config
     nats_config := NatsLatticeConfig.development }⟩

def CimTopologyBuilder.production (tid : TopologyId) (name : String) : CimTopologyBuilder :=
  let super_id := SuperClusterId.mk ("prod-super")
  let super_config0 : SuperClusterConfig :=
    { super_id := super_id
      name := name ++ " Production Super-cluster"
      nats_gateway := { name := "prod-gateway", host := "0.0.0.0" } }
  let regions := [("us-east" : String), ("us-west"), ("eu-west")]
  let st := regions.foldl (fun st region =>
    let cluster_id := ClusterId.mk (region ++ "-cluster")
    let cluster_config0 : ClusterConfig :=
      { cluster_id := cluster_id
        name := name ++ " " ++ pyTitle region ++ " Cluster"
        domain := region
        super_cluster := super_id
        nats_cluster := { name := region ++ "-cluster" } }
    let inner := (List.range 3).foldl (fun p i =>
      let leaf_id := LeafId.mk (region ++ "-leaf-" ++ toString (i + 1))
      let leaf_config : LeafConfig :=
        { leaf_id := leaf_id
          name := name ++ " " ++ pyTitle region ++ " Leaf " ++ toString (i + 1)
          cluster := cluster_id
          nats_leaf := { name := region ++ "-leaf-" ++ toString (i + 1) } }
      ({ p.1 with managed_leaves := sadd p.1.managed_leaves leaf_id },
       aset p.2 leaf_id leaf_config)) (cluster_config0, st.2.leaves)
    ({ st.1 with managed_clusters := sadd st.1.managed_clusters cluster_id },
     { st.2 with leaves := inner.2, clusters := aset st.2.clusters cluster_id inner.1 }))
    (super_config0, ({ topology_id := tid } : CimTopology))
  ⟨{ st.2 with super_clusters := aset st.2.super_clusters super_id st.1,
               nats_config := NatsLatticeConfig.production }⟩

def CimTopologyBuilder.with_client (b : CimTopologyBuilder) (name : String)
    (client_type : ClientType) (preferred_leaf : Option LeafId) (client_id : ClientId) :
    Option String × CimTopologyBuilder :=
  let t := b.topology
  let rr : Option LeafId :=
    let leaves := t.leaves.map (fun kv => kv.1)
    if leaves.isEmpty then none
    else some (leaves.getD (t.clients.length % leaves.length) (LeafId.mk ("")))
  let chosen : Option LeafId :=
    match preferred_leaf with
    | some p => if acontains t.leaves p then some p else rr
    | none => rr
  match chosen with
  | none => (some ("No leaves available for client assignment"), b)
  | some assigned_leaf =>
    let client_config : ClientConfig :=
      { client_id := client_id
        name := name
        client_type := client_type
        assigned_leaf := assigned_leaf }
    (none,
     ⟨{ t with clients := aset t.clients client_id client_config,
               leaves := amodify t.leaves assigned_leaf
                 (fun lc => { lc with assigned_clients := sadd lc.assigned_clients client_id }) }⟩)

def CimTopologyBuilder.build (b : CimTopologyBuilder) : CimTopology × CimTopologyBuilder :=
  let t := { b.topology with version := 1 }
  (t, ⟨t⟩)

def create_development_cim (tid : TopologyId) (name : String) (id1 id2 : ClientId) : CimTopology :=
  let b := CimTopologyBuilder.development tid name
  let b := (b.with_client ("Developer CLI") ClientType.cli none id1).2
  let b := (b.with_client ("Local Browser") ClientType.browser none id2).2
  b.build.1

def create_production_cim (tid : TopologyId) (name : String) (id1 id2 id3 id4 : ClientId) : CimTopology :=
  let b := CimTopologyBuilder.production tid name
  let b := (b.with_client ("Web Application") ClientType.application none id1).2
  let b := (b.with_client ("Mobile Service") ClientType.service none id2).2
  let b := (b.with_client ("Admin CLI") ClientType.cli none id3).2
  let b := (b.with_client ("Developer Workspace") ClientType.developer none id4).2
  b.build.1

/-! ## Well-formedness of a topology (no dangling owner references)

Every client's assigned leaf resolves and that leaf's member set holds the
client; every leaf's owning cluster resolves and manages the leaf; every
cluster's owning super-cluster resolves and manages the cluster. -/

def wellFormed (t : CimTopology) : Bool :=
  t.clients.all (fun kv =>
    match alookup t.leaves kv.2.assigned_leaf with
    | some lc => decide (kv.1 ∈ lc.assigned_clients)
    | none => false) &&
  t.leaves.all (fun kv =>
    match alookup t.clusters kv.2.cluster with
    | some cc => decide (kv.1 ∈ cc.managed_leaves)
    | none => false) &&
  t.clusters.all (fun kv =>
    match alookup t.super_clusters kv.2.super_cluster with
    | some sc => decide (kv.1 ∈ sc.managed_clusters)
    | none => false)

/-- A topology whose membership sets name children absent from their
tier's mapping (`miss`, `lmiss`): exercises the read path's silent
omission of dangling branches. -/
def danglingDemo : CimTopology :=
  { topology_id := TopologyId.mk ("t")
    super_clusters := [(SuperClusterId.mk ("s1"),
      { super_id := SuperClusterId.mk ("s1"), name := "S"
        nats_gateway := { name := "g", host := "h" }
        managed_clusters := [ClusterId.mk ("c1"), ClusterId.mk ("miss")] })]
    clusters := [(ClusterId.mk ("c1"),
      { cluster_id := ClusterId.mk ("c1"), name := "C", domain := "d"
        super_cluster := SuperClusterId.mk ("s1")
        nats_cluster := { name := "nc" }
        managed_leaves := [LeafId.mk ("l1"), LeafId.mk ("lmiss")] })]
    leaves := [(LeafId.mk ("l1"),
      { leaf_id := LeafId.mk ("l1"), name := "L"
        cluster := ClusterId.mk ("c1")
        nats_leaf := { name := "nl" } })] }

/-- Builders obtainable from a preset (`development` or `production`)
followed by any number of `with_client` calls — successful or not
(a failing call returns the builder unchanged). -/
inductive Reached : CimTopologyBuilder → Prop where
  | dev (tid : TopologyId) (name : String) : Reached (CimTopologyBuilder.development tid name)
  | prod (tid : TopologyId) (name : String) : Reached (CimTopologyBuilder.production tid name)
  | client (b : CimTopologyBuilder) (name : String) (ct : ClientType)
      (pref : Option LeafId) (cid : ClientId) :
      Reached b → Reached (b.with_client name ct pref cid).2

end CimNet

namespace CimNet

/-! ## Lemmas about the dictionary and set embeddings -/

theorem alookup_append {α β : Type} [DecidableEq α] (d1 d2 : List (α × β)) (m : α) :
    alookup (d1 ++ d2) m =
      match alookup d1 m with
      | some v => some v
      | none => alookup d2 m := by
  induction d1 with
  | nil => simp [alookup]
  | cons hd tl ih =>
    by_cases h : hd.1 = m <;> simp [alookup, h, ih]

theorem alookup_replace {α β : Type} [DecidableEq α] (d : List (α × β)) (k m : α) (v : β) :
    alookup (d.map (fun kv => if kv.1 = k then (k, v) else kv)) m =
      if m = k then (alookup d k).map (fun _ => v) else alookup d m := by
  induction d with
  | nil => simp [alookup]
  | cons hd tl ih =>
    simp only [List.map_cons]
    by_cases h1 : hd.1 = k
    · by_cases h2 : m = k
      · subst h2; simp [alookup, h1]
      · have h4 : ¬ (k = m) := fun h => h2 h.symm
        have h5 : ¬ (hd.1 = m) := by rw [h1]; exact h4
        simp [alookup, h1, h2, h4, h5, ih]
    · by_cases h2 : hd.1 = m
      · have hmk : ¬ (m = k) := fun h => h1 (h2.trans h)
        simp [alookup, h1, h2, hmk]
      · simp [alookup, h1, h2, ih]

theorem alookup_aset {α β : Type} [DecidableEq α] (d : List (α × β)) (k m : α) (v : β) :
    alookup (aset d k v) m = if m = k then some v else alookup d m := by
  unfold aset
  by_cases hc : acontains d k
  · obtain ⟨w, hw⟩ := Option.isSome_iff_exists.1 hc
    simp [hc, alookup_replace, hw]
  · simp [hc, alookup_append]
    by_cases h2 : m = k
    · subst h2
      have hn : alookup d m = none := by
        cases he : alookup d m with
        | none => rfl
        | some w => rw [acontains, he] at hc; simp at hc
      simp [hn, alookup]
    · have h3 : ¬ (k = m) := fun h => h2 h.symm
      cases he : alookup d m <;> simp [he, alookup, h3, h2]

theorem alookup_amodify {α β : Type} [DecidableEq α] (d : List (α × β)) (k m : α) (f : β → β) :
    alookup (amodify d k f) m = if m = k then (alookup d k).map f else alookup d m := by
  induction d with
  | nil => simp [alookup, amodify]
  | cons hd tl ih =>
    simp only [amodify, List.map_cons] at ih ⊢
    by_cases h1 : hd.1 = k
    · by_cases h2 : m = k
      · subst h2; simp [alookup, h1]
      · have h4 : ¬ (k = m) := fun h => h2 h.symm
        have h5 : ¬ (hd.1 = m) := by rw [h1]; exact h4
        simp [alookup, h1, h2, h4, h5, ih]
    · by_cases h2 : hd.1 = m
      · have hmk : ¬ (m = k) := fun h => h1 (h2.trans h)
        simp [alookup, h1, h2, hmk]
      · simp [alookup, h1, h2, ih]

theorem alookup_eq_none_iff {α β : Type} [DecidableEq α] (d : List (α × β)) (k : α) :
    alookup d k = none ↔ k ∉ d.map (fun kv => kv.1) := by
  induction d with
  | nil => simp [alookup]
  | cons hd tl ih =>
    by_cases h : hd.1 = k
    · simp [alookup, h]
    · have h' : ¬ (k = hd.1) := fun hh => h hh.symm
      simp [alookup, h, h', ih]

theorem mem_keys_of_alookup {α β : Type} [DecidableEq α] {d : List (α × β)} {k : α} {v : β}
    (h : alookup d k = some v) : k ∈ d.map (fun kv => kv.1) := by
  by_contra hmem
  rw [← alookup_eq_none_iff] at hmem
  rw [h] at hmem; cases hmem

theorem alookup_isSome_of_mem_keys {α β : Type} [DecidableEq α] {d : List (α × β)} {k : α}
    (h : k ∈ d.map (fun kv => kv.1)) : ∃ v, alookup d k = some v := by
  cases he : alookup d k with
  | some v => exact ⟨v, rfl⟩
  | none => exact absurd ((alookup_eq_none_iff d k).1 he) (fun hn => hn h)

theorem getD_mem {α : Type} : ∀ (l : List α) (i : Nat) (d : α), i < l.length → l.getD i d ∈ l
  | [], i, _, h => by cases h
  | a :: tl, 0, d, _ => by simp [List.getD]
  | a :: tl, i + 1, d, h => by
    have := getD_mem tl i d (Nat.lt_of_succ_lt_succ h)
    simp [List.getD] at this ⊢
    exact Or.inr this

theorem mem_aset {α β : Type} [DecidableEq α] {d : List (α × β)} {k : α} {v : β} {x : α × β}
    (h : x ∈ aset d k v) : x = (k, v) ∨ (x ∈ d ∧ ¬ x.1 = k) := by
  unfold aset at h
  by_cases hc : acontains d k
  · rw [if_pos hc] at h
    obtain ⟨kv, hmem, hx⟩ := List.mem_map.1 h
    by_cases hk : kv.1 = k
    · rw [if_pos hk] at hx; exact Or.inl hx.symm
    · rw [if_neg hk] at hx; exact Or.inr ⟨hx ▸ hmem, by rw [← hx]; exact hk⟩
  · rw [if_neg hc] at h
    rcases List.mem_append.1 h with h | h
    · right
      refine ⟨h, fun hk => ?_⟩
      have hn : alookup d k = none := by
        cases he : alookup d k with
        | none => rfl
        | some w => rw [acontains, he] at hc; simp at hc
      exact ((alookup_eq_none_iff d k).1 hn) (hk ▸ List.mem_map_of_mem (fun kv => kv.1) h)
    · left; simpa using h

theorem mem_sadd_self {α : Type} [DecidableEq α] (s : List α) (a : α) : a ∈ sadd s a := by
  unfold sadd
  by_cases h : a ∈ s <;> simp [h]

theorem mem_sadd_of_mem {α : Type} [DecidableEq α] {s : List α} {x : α} (a : α)
    (h : x ∈ s) : x ∈ sadd s a := by
  unfold sadd
  by_cases ha : a ∈ s <;> simp [ha, h]

/-- The `update` fold computes the pointwise maximum, provided the other
clock's keys are duplicate-free (guaranteed for a Python `dict`). -/
theorem update_fold_get (ol : List (String × Nat)) (cl : List (String × Nat)) (m : String)
    (h : (ol.map (fun kv => kv.1)).Nodup) :
    (alookup (ol.foldl (fun cl nc => aset cl nc.1 (max ((alookup cl nc.1).getD 0) nc.2)) cl) m).getD 0
      = max ((alookup cl m).getD 0) ((alookup ol m).getD 0) := by
  induction ol generalizing cl with
  | nil => simp [alookup]
  | cons hd tl ih =>
    simp only [List.map_cons, List.nodup_cons] at h
    simp only [List.foldl_cons]
    rw [ih _ h.2]
    by_cases hm : m = hd.1
    · subst hm
      have hn : alookup tl hd.1 = none := (alookup_eq_none_iff tl hd.1).2 h.1
      simp [alookup_aset, alookup, hn]
    · have hm2 : ¬ (hd.1 = m) := fun hh => hm hh.symm
      simp [alookup_aset, alookup, hm, hm2]

/-! ## Claim theorems -/

/-- C8: no `VectorClock` operation decreases a counter: `tick(node)`
increments exactly that node's counter by one (absent counters read 0)
and leaves every other counter unchanged, and `update` (merge) sets every
node's counter to the pointwise maximum of the two clocks, which is at
least its previous value. -/
theorem vector_clock_never_decreases (vc other : VectorClock) (n m : String)
    (h : (other.clocks.map (fun kv => kv.1)).Nodup) :
    ((vc.tick n).get m = if m = n then vc.get m + 1 else vc.get m) ∧
    ((vc.update other).get m = max (vc.get m) (other.get m)) ∧
    vc.get m ≤ (vc.tick n).get m ∧
    vc.get m ≤ (vc.update other).get m := by
  have htick : (vc.tick n).get m = if m = n then vc.get m + 1 else vc.get m := by
    unfold VectorClock.tick VectorClock.get
    rw [alookup_aset]
    by_cases hm : m = n <;> simp [hm]
  have hupd : (vc.update other).get m = max (vc.get m) (other.get m) := by
    unfold VectorClock.update VectorClock.get
    exact update_fold_get other.clocks vc.clocks m h
  refine ⟨htick, hupd, ?_, ?_⟩
  · rw [htick]
    by_cases hm : m = n <;> simp [hm]
  · rw [hupd]
    exact Nat.le_max_left _ _

/-- C8 witness: the theorem applied to concrete clocks. -/
theorem vector_clock_never_decreases_witness :
    ((([(("a"), 2), (("b"), 5)] : List (String × Nat)).map (fun kv => kv.1)).Nodup) ∧
    (((⟨[(("a"), 1)]⟩ : VectorClock).tick ("a")).get ("a") =
        if ("a" : String) = ("a") then (⟨[(("a"), 1)]⟩ : VectorClock).get ("a") + 1
        else (⟨[(("a"), 1)]⟩ : VectorClock).get ("a")) ∧
    (((⟨[(("a"), 1)]⟩ : VectorClock).update ⟨[(("a"), 2), (("b"), 5)]⟩).get ("a") =
        max ((⟨[(("a"), 1)]⟩ : VectorClock).get ("a")) ((⟨[(("a"), 2), (("b"), 5)]⟩ : VectorClock).get ("a"))) ∧
    (⟨[(("a"), 1)]⟩ : VectorClock).get ("a") ≤ ((⟨[(("a"), 1)]⟩ : VectorClock).tick ("a")).get ("a") ∧
    (⟨[(("a"), 1)]⟩ : VectorClock).get ("a") ≤
      ((⟨[(("a"), 1)]⟩ : VectorClock).update ⟨[(("a"), 2), (("b"), 5)]⟩).get ("a") :=
  ⟨by decide, vector_clock_never_decreases ⟨[(("a"), 1)]⟩ ⟨[(("a"), 2), (("b"), 5)]⟩ ("a") ("a") (by decide)⟩

/-- C6: `build()` sets the version to 1 and returns the assembled
aggregate with the builder's topology identifier; building again performs
no further mutation and returns the same topology and builder state. -/
theorem build_sets_version_and_is_idempotent (b : CimTopologyBuilder) :
    b.build.1.version = 1 ∧
    b.build.1.topology_id = b.topology.topology_id ∧
    b.build.2.build.1 = b.build.1 ∧
    b.build.2.build.2 = b.build.2 :=
  ⟨rfl, rfl, rfl, rfl⟩

/-- C4: `with_client` with no preferred leaf on a builder with zero
leaves fails with the `NoLeavesAvailable` error message and returns the
builder unchanged (the `raise` precedes every mutation). -/
theorem with_client_no_leaves_fails (b : CimTopologyBuilder) (name : String)
    (ct : ClientType) (cid : ClientId) (h : b.topology.leaves = []) :
    b.with_client name ct none cid = (some ("No leaves available for client assignment"), b) := by
  simp [CimTopologyBuilder.with_client, h]

/-- C4 witness: a builder holding only a fresh topology. -/
theorem with_client_no_leaves_fails_witness :
    (⟨{ topology_id := TopologyId.mk ("t0") }⟩ : CimTopologyBuilder).topology.leaves = [] ∧
    CimTopologyBuilder.with_client ⟨{ topology_id := TopologyId.mk ("t0") }⟩ ("x")
        ClientType.cli none (ClientId.mk ("c0")) =
      (some ("No leaves available for client assignment"), ⟨{ topology_id := TopologyId.mk ("t0") }⟩) :=
  ⟨rfl, with_client_no_leaves_fails _ ("x") ClientType.cli (ClientId.mk ("c0")) rfl⟩

/-- C10: a preferred leaf id that is not a key of `leaves` is silently
ignored while at least one leaf exists: the call succeeds and behaves
exactly like a call without a preference. -/
theorem with_client_unknown_preferred_ignored (b : CimTopologyBuilder) (name : String)
    (ct : ClientType) (cid : ClientId) (p : LeafId)
    (h1 : alookup b.topology.leaves p = none) (h2 : b.topology.leaves ≠ []) :
    b.with_client name ct (some p) cid = b.with_client name ct none cid ∧
    (b.with_client name ct (some p) cid).1 = none := by
  have hc : acontains b.topology.leaves p = false := by simp [acontains, h1]
  constructor
  · simp [CimTopologyBuilder.with_client, hc]
  · cases hl : b.topology.leaves with
    | nil => exact absurd hl h2
    | cons hd tl =>
      have hc2 : acontains (hd :: tl) p = false := hl ▸ hc
      simp [CimTopologyBuilder.with_client, hc2, hl]

/-- C10 witness: the development builder (one leaf) with an unknown
preferred leaf id. -/
theorem with_client_unknown_preferred_ignored_witness :
    alookup (CimTopologyBuilder.development (TopologyId.mk ("t")) ("w")).topology.leaves
        (LeafId.mk ("nope")) = none ∧
    (CimTopologyBuilder.development (TopologyId.mk ("t")) ("w")).topology.leaves ≠ [] ∧
    ((CimTopologyBuilder.development (TopologyId.mk ("t")) ("w")).with_client ("x") ClientType.cli
          (some (LeafId.mk ("nope"))) (ClientId.mk ("c")) =
        (CimTopologyBuilder.development (TopologyId.mk ("t")) ("w")).with_client ("x")
          ClientType.cli none (ClientId.mk ("c")) ∧
      ((CimTopologyBuilder.development (TopologyId.mk ("t")) ("w")).with_client ("x") ClientType.cli
          (some (LeafId.mk ("nope"))) (ClientId.mk ("c"))).1 = none) :=
  ⟨by decide, by decide,
    with_client_unknown_preferred_ignored _ ("x") ClientType.cli (ClientId.mk ("c"))
      (LeafId.mk ("nope")) (by decide) (by decide)⟩

/-- C2: with no preferred leaf and at least one leaf present, the new
client is assigned to the leaf at index `(number of clients already
present) mod (number of leaves)` in leaf-addition order, the stored
client record carries that leaf, and that leaf's assigned-client set
gains the new client's identifier. -/
theorem with_client_round_robin (b : CimTopologyBuilder) (name : String) (ct : ClientType)
    (cid : ClientId) (h : b.topology.leaves ≠ []) :
    (b.with_client name ct none cid).1 = none ∧
    alookup (b.with_client name ct none cid).2.topology.clients cid =
      some { client_id := cid, name := name, client_type := ct,
             assigned_leaf := (b.topology.leaves.map (fun kv => kv.1)).getD
               (b.topology.clients.length % b.topology.leaves.length) (LeafId.mk ("")) } ∧
    alookup (b.with_client name ct none cid).2.topology.leaves
        ((b.topology.leaves.map (fun kv => kv.1)).getD
          (b.topology.clients.length % b.topology.leaves.length) (LeafId.mk (""))) =
      (alookup b.topology.leaves
          ((b.topology.leaves.map (fun kv => kv.1)).getD
            (b.topology.clients.length % b.topology.leaves.length) (LeafId.mk ("")))).map
        (fun lc => { lc with assigned_clients := sadd lc.assigned_clients cid }) := by
  cases hl : b.topology.leaves with
  | nil => exact absurd hl h
  | cons hd tl =>
    refine ⟨by simp [CimTopologyBuilder.with_client, hl], ?_, ?_⟩
    · simp [CimTopologyBuilder.with_client, hl, alookup_aset]
    · simp [CimTopologyBuilder.with_client, hl, alookup_amodify]

/-- C2 witness: first client on the development builder (one leaf) goes
to index `0 mod 1`, the `dev-leaf`. -/
theorem with_client_round_robin_witness :
    (CimTopologyBuilder.development (TopologyId.mk ("t")) ("w")).topology.leaves ≠ [] ∧
    (((CimTopologyBuilder.development (TopologyId.mk ("t")) ("w")).with_client ("x")
          ClientType.cli none (ClientId.mk ("c"))).1 = none ∧
      alookup ((CimTopologyBuilder.development (TopologyId.mk ("t")) ("w")).with_client ("x")
            ClientType.cli none (ClientId.mk ("c"))).2.topology.clients (ClientId.mk ("c")) =
        some { client_id := ClientId.mk ("c"), name := "x", client_type := ClientType.cli,
               assigned_leaf :=
                 ((CimTopologyBuilder.development (TopologyId.mk ("t")) ("w")).topology.leaves.map
                     (fun kv => kv.1)).getD
                   ((CimTopologyBuilder.development (TopologyId.mk ("t")) ("w")).topology.clients.length %
                     (CimTopologyBuilder.development (TopologyId.mk ("t")) ("w")).topology.leaves.length)
                   (LeafId.mk ("")) } ∧
      alookup ((CimTopologyBuilder.development (TopologyId.mk ("t")) ("w")).with_client ("x")
            ClientType.cli none (ClientId.mk ("c"))).2.topology.leaves
          (((CimTopologyBuilder.development (TopologyId.mk ("t")) ("w")).topology.leaves.map
              (fun kv => kv.1)).getD
            ((CimTopologyBuilder.development (TopologyId.mk ("t")) ("w")).topology.clients.length %
              (CimTopologyBuilder.development (TopologyId.mk ("t")) ("w")).topology.leaves.length)
            (LeafId.mk (""))) =
        (alookup (CimTopologyBuilder.development (TopologyId.mk ("t")) ("w")).topology.leaves
            (((CimTopologyBuilder.development (TopologyId.mk ("t")) ("w")).topology.leaves.map
                (fun kv => kv.1)).getD
              ((CimTopologyBuilder.development (TopologyId.mk ("t")) ("w")).topology.clients.length %
                (CimTopologyBuilder.development (TopologyId.mk ("t")) ("w")).topology.leaves.length)
              (LeafId.mk ("")))).map
          (fun lc => { lc with assigned_clients := sadd lc.assigned_clients (ClientId.mk ("c")) })) :=
  ⟨by decide,
    with_client_round_robin (CimTopologyBuilder.development (TopologyId.mk ("t")) ("w")) ("x")
      ClientType.cli (ClientId.mk ("c")) (by decide)⟩

/-- Registering one client at a leaf that is present keeps the topology
free of dangling owner references. -/
theorem wellFormed_insert_client (t : CimTopology) (cid : ClientId) (name : String)
    (ct : ClientType) (assigned : LeafId)
    (hwf : wellFormed t = true)
    (hmem : assigned ∈ t.leaves.map (fun kv => kv.1)) :
    wellFormed { t with
      clients := aset t.clients cid
        { client_id := cid, name := name, client_type := ct, assigned_leaf := assigned },
      leaves := amodify t.leaves assigned
        (fun lc => { lc with assigned_clients := sadd lc.assigned_clients cid }) } = true := by
  obtain ⟨lc0, hlc0⟩ := alookup_isSome_of_mem_keys hmem
  unfold wellFormed at hwf ⊢
  simp only [Bool.and_eq_true, List.all_eq_true] at hwf ⊢
  obtain ⟨⟨h1, h2⟩, h3⟩ := hwf
  refine ⟨⟨?_, ?_⟩, ?_⟩
  · intro kv hkv
    rcases mem_aset hkv with rfl | ⟨hold, hne⟩
    · rw [alookup_amodify, if_pos rfl, hlc0]
      exact decide_eq_true (mem_sadd_self lc0.assigned_clients cid)
    · have hchk := h1 kv hold
      cases he : alookup t.leaves kv.2.assigned_leaf with
      | none => rw [he] at hchk; exact absurd hchk (by simp)
      | some lc =>
        rw [alookup_amodify]
        by_cases ha : kv.2.assigned_leaf = assigned
        · have he2 : alookup t.leaves assigned = some lc := ha ▸ he
          rw [he] at hchk
          rw [if_pos ha, he2]
          exact decide_eq_true (mem_sadd_of_mem _ (of_decide_eq_true hchk))
        · rw [if_neg ha, he]
          rw [he] at hchk
          exact hchk
  · intro kv hkv
    obtain ⟨kv0, hkv0, hdef⟩ := List.mem_map.1 hkv
    have hchk := h2 kv0 hkv0
    by_cases hk : kv0.1 = assigned
    · rw [if_pos hk] at hdef
      rw [← hdef]
      exact hchk
    · rw [if_neg hk] at hdef
      rw [← hdef]
      exact hchk
  · intro kv hkv
    exact h3 kv hkv

/-- One `with_client` call, with any preference and outcome, keeps the
built topology free of dangling owner references. -/
theorem wellFormed_with_client (b : CimTopologyBuilder) (name : String) (ct : ClientType)
    (pref : Option LeafId) (cid : ClientId)
    (h : wellFormed b.topology = true) :
    wellFormed (b.with_client name ct pref cid).2.topology = true := by
  cases pref with
  | none =>
    by_cases he : (b.topology.leaves.map (fun kv => kv.1)).isEmpty
    · simp [CimTopologyBuilder.with_client, he, h]
    · have hne : b.topology.leaves.map (fun kv => kv.1) ≠ [] := by
        intro hnil; rw [hnil] at he; simp at he
      have hlen : 0 < (b.topology.leaves.map (fun kv => kv.1)).length := List.length_pos.2 hne
      have hmem := getD_mem (b.topology.leaves.map (fun kv => kv.1))
        (b.topology.clients.length % (b.topology.leaves.map (fun kv => kv.1)).length)
        (LeafId.mk ("")) (Nat.mod_lt _ hlen)
      have H := wellFormed_insert_client b.topology cid name ct _ h hmem
      simpa [CimTopologyBuilder.with_client, he] using H
  | some p =>
    by_cases hp : acontains b.topology.leaves p
    · obtain ⟨lc, hlc⟩ := Option.isSome_iff_exists.1 hp
      have hmem := mem_keys_of_alookup hlc
      have H := wellFormed_insert_client b.topology cid name ct p h hmem
      simpa [CimTopologyBuilder.with_client, hp] using H
    · by_cases he : (b.topology.leaves.map (fun kv => kv.1)).isEmpty
      · simp [CimTopologyBuilder.with_client, hp, he, h]
      · have hne : b.topology.leaves.map (fun kv => kv.1) ≠ [] := by
          intro hnil; rw [hnil] at he; simp at he
        have hlen : 0 < (b.topology.leaves.map (fun kv => kv.1)).length := List.length_pos.2 hne
        have hmem := getD_mem (b.topology.leaves.map (fun kv => kv.1))
          (b.topology.clients.length % (b.topology.leaves.map (fun kv => kv.1)).length)
          (LeafId.mk ("")) (Nat.mod_lt _ hlen)
        have H := wellFormed_insert_client b.topology cid name ct _ h hmem
        simpa [CimTopologyBuilder.with_client, hp, he] using H

set_option maxHeartbeats 2000000 in
/-- C3: any builder reachable from the development or production preset
by `with_client` calls builds a topology with no dangling owner
reference: every client's leaf, every leaf's cluster and every cluster's
super-cluster resolve, and each parent's membership set contains every
child that names it as owner. -/
theorem build_never_dangles (b : CimTopologyBuilder) (h : Reached b) :
    wellFormed b.build.1 = true := by
  suffices hs : wellFormed b.topology = true by exact hs
  induction h with
  | dev tid name => rfl
  | prod tid name => rfl
  | client b2 name ct pref cid hr ih => exact wellFormed_with_client b2 name ct pref cid ih

/-- C3 witness: development preset plus one round-robin client. -/
theorem build_never_dangles_witness :
    wellFormed ((CimTopologyBuilder.development (TopologyId.mk ("t")) ("w")).with_client ("x")
        ClientType.cli none (ClientId.mk ("c"))).2.build.1 = true :=
  build_never_dangles _
    (Reached.client _ ("x") ClientType.cli none (ClientId.mk ("c"))
      (Reached.dev (TopologyId.mk ("t")) ("w")))

/-- Every element of a fold is covered by a property preserved by each
step (the step may consult membership of the folded element in `l`). -/
theorem foldl_all {γ δ : Type} {P : δ → Prop} (f : List δ → γ → List δ) (l : List γ)
    (hstep : ∀ acc g x, g ∈ l → (∀ y ∈ acc, P y) → x ∈ f acc g → P x) :
    ∀ acc, (∀ y ∈ acc, P y) → ∀ x ∈ l.foldl f acc, P x := by
  induction l with
  | nil => intro acc hacc x hx; exact hacc x hx
  | cons hd tl ih =>
    intro acc hacc x hx
    exact ih (fun acc2 g y hg ha hy => hstep acc2 g y (List.mem_cons_of_mem hd hg) ha hy)
      (f acc hd) (fun y hy => hstep acc hd y (List.mem_cons_self hd tl) hacc hy) x hx

theorem mkHierLeafEntries_keys (t : CimTopology) (cc : ClusterConfig) :
    ∀ e ∈ mkHierLeafEntries t cc, e.1 ∈ t.leaves.map (fun kv => kv.1.value) := by
  unfold mkHierLeafEntries
  refine foldl_all _ _ ?_ [] (by simp)
  intro acc g x _ hacc hx
  cases hg : alookup t.leaves g with
  | none => rw [hg] at hx; exact hacc x hx
  | some lc =>
    rw [hg] at hx
    rcases mem_aset hx with rfl | ⟨hold, _⟩
    · obtain ⟨kv, hkv, hkveq⟩ := List.mem_map.1 (mem_keys_of_alookup hg)
      exact List.mem_map.2 ⟨kv, hkv, by rw [hkveq]⟩
    · exact hacc x hold

theorem mkHierClusters_sound (t : CimTopology) (sc : SuperClusterConfig) :
    ∀ e ∈ mkHierClusters t sc,
      e.1 ∈ t.clusters.map (fun kv => kv.1.value) ∧
      ∀ l ∈ e.2.leaves, l.1 ∈ t.leaves.map (fun kv => kv.1.value) := by
  unfold mkHierClusters
  refine foldl_all _ _ ?_ [] (by simp)
  intro acc g x _ hacc hx
  cases hg : alookup t.clusters g with
  | none => rw [hg] at hx; exact hacc x hx
  | some cc =>
    rw [hg] at hx
    rcases mem_aset hx with rfl | ⟨hold, _⟩
    · constructor
      · obtain ⟨kv, hkv, hkveq⟩ := List.mem_map.1 (mem_keys_of_alookup hg)
        exact List.mem_map.2 ⟨kv, hkv, by rw [hkveq]⟩
      · exact mkHierLeafEntries_keys t cc
    · exact hacc x hold

theorem hierarchy_entries (t : CimTopology) :
    ∀ s ∈ (buildHierarchyView t).getD [],
      ∃ sp ∈ t.super_clusters, s.2 = HierSuper.mk sp.2.name (mkHierClusters t sp.2) := by
  unfold buildHierarchyView
  by_cases hemp : t.super_clusters.isEmpty
  · simp [hemp]
  · simp only [hemp, if_neg, Bool.false_eq_true, not_false_eq_true, Option.getD_some]
    refine foldl_all _ _ ?_ [] (by simp)
    intro acc g x hg hacc hx
    rcases mem_aset hx with rfl | ⟨hold, _⟩
    · exact ⟨g, hg, rfl⟩
    · exact hacc x hold

/-- C7: the tier summary's hierarchy view never surfaces a managed child
id that is absent from its tier's mapping — the dangling branch is
silently omitted (and the read path is a total function: every cluster
key in the view resolves in `clusters`, every leaf key in `leaves`). -/
theorem tier_summary_omits_missing (t : CimTopology) (s : String × HierSuper)
    (c : String × HierCluster) (l : String × HierLeaf)
    (hs : s ∈ (CimTopology.get_tier_summary t).hierarchy.getD [])
    (hc : c ∈ s.2.clusters) :
    c.1 ∈ t.clusters.map (fun kv => kv.1.value) ∧
    (l ∈ c.2.leaves → l.1 ∈ t.leaves.map (fun kv => kv.1.value)) := by
  obtain ⟨sp, hsp, hseq⟩ := hierarchy_entries t s hs
  rw [hseq] at hc
  have hsound := mkHierClusters_sound t sp.2 c hc
  exact ⟨hsound.1, fun hl => hsound.2 l hl⟩

/-- C7 witness: in `danglingDemo` the view keeps `c1`/`l1` and the
theorem's conclusion holds for them; the dangling `miss`/`lmiss`
branches are absent from the view. -/
theorem tier_summary_omits_missing_witness :
    ((("s1"), HierSuper.mk ("S")
        [(("c1"), HierCluster.mk ("C") ("d") [(("l1"), HierLeaf.mk ("L") [])])]) ∈
      (CimTopology.get_tier_summary danglingDemo).hierarchy.getD []) ∧
    ((("c1"), HierCluster.mk ("C") ("d") [(("l1"), HierLeaf.mk ("L") [])]) ∈
      (HierSuper.mk ("S")
        [(("c1"), HierCluster.mk ("C") ("d") [(("l1"), HierLeaf.mk ("L") [])])]).clusters) ∧
    ((("c1") : String) ∈ danglingDemo.clusters.map (fun kv => kv.1.value) ∧
      ((("l1"), HierLeaf.mk ("L") []) ∈
          (HierCluster.mk ("C") ("d") [(("l1"), HierLeaf.mk ("L") [])]).leaves →
        (("l1") : String) ∈ danglingDemo.leaves.map (fun kv => kv.1.value))) :=
  ⟨by decide, by decide,
    tier_summary_omits_missing danglingDemo
      ((("s1"), HierSuper.mk ("S")
        [(("c1"), HierCluster.mk ("C") ("d") [(("l1"), HierLeaf.mk ("L") [])])]))
      ((("c1"), HierCluster.mk ("C") ("d") [(("l1"), HierLeaf.mk ("L") [])]))
      ((("l1"), HierLeaf.mk ("L") [])) (by decide) (by decide)⟩

/-- `with_client` never changes the number of leaves and never touches
the clusters or super-clusters mappings (it only mutates one leaf's
member set and the clients mapping). -/
theorem with_client_tier_lengths (b : CimTopologyBuilder) (name : String) (ct : ClientType)
    (pref : Option LeafId) (cid : ClientId) :
    (b.with_client name ct pref cid).2.topology.leaves.length = b.topology.leaves.length ∧
    (b.with_client name ct pref cid).2.topology.clusters = b.topology.clusters ∧
    (b.with_client name ct pref cid).2.topology.super_clusters = b.topology.super_clusters := by
  cases pref with
  | none =>
    by_cases he : (b.topology.leaves.map (fun kv => kv.1)).isEmpty
    · simp [CimTopologyBuilder.with_client, he]
    · simp [CimTopologyBuilder.with_client, he, amodify]
  | some p =>
    by_cases hp : acontains b.topology.leaves p
    · simp [CimTopologyBuilder.with_client, hp, amodify]
    · by_cases he : (b.topology.leaves.map (fun kv => kv.1)).isEmpty
      · simp [CimTopologyBuilder.with_client, hp, he]
      · simp [CimTopologyBuilder.with_client, hp, he, amodify]

set_option maxHeartbeats 0 in
/-- C9: the production preset creates exactly 3 clusters (one per fixed
region) and 9 leaves (3 per cluster), all owned by the single
`prod-super` SuperCluster, and the built topology's tier summary reports
those counts. -/
theorem production_three_regions_nine_leaves (tid : TopologyId) (name : String)
    (id1 id2 id3 id4 : ClientId) :
    (create_production_cim tid name id1 id2 id3 id4).clusters.length = 3 ∧
    (create_production_cim tid name id1 id2 id3 id4).leaves.length = 9 ∧
    (create_production_cim tid name id1 id2 id3 id4).super_clusters.length = 1 ∧
    ((create_production_cim tid name id1 id2 id3 id4).clusters.all
      (fun kv => decide (kv.2.super_cluster = SuperClusterId.mk ("prod-super")))) = true ∧
    ((create_production_cim tid name id1 id2 id3 id4).clusters.all
      (fun kv => decide (kv.2.managed_leaves.length = 3))) = true ∧
    (create_production_cim tid name id1 id2 id3 id4).get_tier_summary.tiers.clusters = 3 ∧
    (create_production_cim tid name id1 id2 id3 id4).get_tier_summary.tiers.leaves = 9 := by
  have h1 := with_client_tier_lengths (CimTopologyBuilder.production tid name)
    ("Web Application") ClientType.application none id1
  have h2 := with_client_tier_lengths
    ((CimTopologyBuilder.production tid name).with_client ("Web Application")
      ClientType.application none id1).2
    ("Mobile Service") ClientType.service none id2
  have h3 := with_client_tier_lengths
    (((CimTopologyBuilder.production tid name).with_client ("Web Application")
        ClientType.application none id1).2.with_client ("Mobile Service")
      ClientType.service none id2).2
    ("Admin CLI") ClientType.cli none id3
  have h4 := with_client_tier_lengths
    ((((CimTopologyBuilder.production tid name).with_client ("Web Application")
          ClientType.application none id1).2.with_client ("Mobile Service")
        ClientType.service none id2).2.with_client ("Admin CLI")
      ClientType.cli none id3).2
    ("Developer Workspace") ClientType.developer none id4
  have hcp : create_production_cim tid name id1 id2 id3 id4 =
      (((((CimTopologyBuilder.production tid name).with_client ("Web Application")
            ClientType.application none id1).2.with_client ("Mobile Service")
          ClientType.service none id2).2.with_client ("Admin CLI")
        ClientType.cli none id3).2.with_client ("Developer Workspace")
        ClientType.developer none id4).2.build.1 := rfl
  have hbc : ∀ (b : CimTopologyBuilder), b.build.1.clusters = b.topology.clusters := fun _ => rfl
  have hbl : ∀ (b : CimTopologyBuilder), b.build.1.leaves = b.topology.leaves := fun _ => rfl
  have hbs : ∀ (b : CimTopologyBuilder), b.build.1.super_clusters = b.topology.super_clusters :=
    fun _ => rfl
  have hts1 : ∀ (t : CimTopology), t.get_tier_summary.tiers.clusters = t.clusters.length :=
    fun _ => rfl
  have hts2 : ∀ (t : CimTopology), t.get_tier_summary.tiers.leaves = t.leaves.length :=
    fun _ => rfl
  rw [hcp, hts1, hts2, hbc, hbl, hbs, h4.1, h3.1, h2.1, h1.1, h4.2.1, h3.2.1, h2.2.1, h1.2.1,
    h4.2.2, h3.2.2, h2.2.2, h1.2.2]
  have hc3 : (CimTopologyBuilder.production tid name).topology.clusters.length = 3 := rfl
  have hl9 : (CimTopologyBuilder.production tid name).topology.leaves.length = 9 := rfl
  have hs1 : (CimTopologyBuilder.production tid name).topology.super_clusters.length = 1 := rfl
  have ha1 : ((CimTopologyBuilder.production tid name).topology.clusters.all
      (fun kv => decide (kv.2.super_cluster = SuperClusterId.mk ("prod-super")))) = true := rfl
  have ha2 : ((CimTopologyBuilder.production tid name).topology.clusters.all
      (fun kv => decide (kv.2.managed_leaves.length = 3))) = true := rfl
  exact ⟨hc3, hl9, hs1, ha1, ha2, hc3, hl9⟩

set_option maxRecDepth 65536 in
set_option maxHeartbeats 4000000 in
/-- C5: the content-address is deterministic in (payload, source tier,
node id, previous address) with the hashed clock reading held fixed —
the stored-timestamp reading and the fresh correlation/causation draws
do not enter the hash — and, at the tested inputs, changing any one of
payload, source tier, node id, previous address, or the hashed timestamp
changes the address. -/
theorem event_cid_determinism_and_sensitivity :
    (∀ (p : JObj) (tier : CimTier) (n : String) (prev : Option Cid)
       (corr : Option CorrelationId) (caus : Option CausationId) (t ta tb fc1 fc2 fk1 fk2 : String),
       (CimEvent.create p tier n prev corr caus t ta fc1 fk1).event_cid =
         (CimEvent.create p tier n prev corr caus t tb fc2 fk2).event_cid) ∧
    (CimEvent.create [(("op"), JsonVal.jstr ("add"))] CimTier.leaf ("node-1") none none none
        ("2024-01-01T00:00:00") ("2024-01-01T00:00:00") ("c") ("k")).event_cid ≠
      (CimEvent.create [(("op"), JsonVal.jstr ("del"))] CimTier.leaf ("node-1") none none none
        ("2024-01-01T00:00:00") ("2024-01-01T00:00:00") ("c") ("k")).event_cid ∧
    (CimEvent.create [(("op"), JsonVal.jstr ("add"))] CimTier.leaf ("node-1") none none none
        ("2024-01-01T00:00:00") ("2024-01-01T00:00:00") ("c") ("k")).event_cid ≠
      (CimEvent.create [(("op"), JsonVal.jstr ("add"))] CimTier.cluster ("node-1") none none none
        ("2024-01-01T00:00:00") ("2024-01-01T00:00:00") ("c") ("k")).event_cid ∧
    (CimEvent.create [(("op"), JsonVal.jstr ("add"))] CimTier.leaf ("node-1") none none none
        ("2024-01-01T00:00:00") ("2024-01-01T00:00:00") ("c") ("k")).event_cid ≠
      (CimEvent.create [(("op"), JsonVal.jstr ("add"))] CimTier.leaf ("node-2") none none none
        ("2024-01-01T00:00:00") ("2024-01-01T00:00:00") ("c") ("k")).event_cid ∧
    (CimEvent.create [(("op"), JsonVal.jstr ("add"))] CimTier.leaf ("node-1") none none none
        ("2024-01-01T00:00:00") ("2024-01-01T00:00:00") ("c") ("k")).event_cid ≠
      (CimEvent.create [(("op"), JsonVal.jstr ("add"))] CimTier.leaf ("node-1")
        (some (Cid.mk ("prev"))) none none
        ("2024-01-01T00:00:00") ("2024-01-01T00:00:00") ("c") ("k")).event_cid ∧
    (CimEvent.create [(("op"), JsonVal.jstr ("add"))] CimTier.leaf ("node-1") none none none
        ("2024-01-01T00:00:00") ("2024-01-01T00:00:00") ("c") ("k")).event_cid ≠
      (CimEvent.create [(("op"), JsonVal.jstr ("add"))] CimTier.leaf ("node-1") none none none
        ("2024-01-01T00:00:01") ("2024-01-01T00:00:01") ("c") ("k")).event_cid := by
  refine ⟨fun p tier n prev corr caus t ta tb fc1 fc2 fk1 fk2 => rfl, ?_, ?_, ?_, ?_, ?_⟩
  all_goals decide

set_option maxRecDepth 65536 in
set_option maxHeartbeats 4000000 in
/-- C1 counterexample: `CimEvent.create` reads the clock twice, so when
the second reading differs from the first by even a microsecond the
stored timestamp is not the hashed one, and recomputing the canonical
serialization and SHA-256 from the stored field values does not
reproduce the stored `event_cid`. -/
theorem recompute_from_stored_fields_mismatch :
    recomputeCid (CimEvent.create [] CimTier.client ("n") none none none
        ("2024-01-01T00:00:00.000001") ("2024-01-01T00:00:00.000002") ("c") ("k")) ≠
      (CimEvent.create [] CimTier.client ("n") none none none
        ("2024-01-01T00:00:00.000001") ("2024-01-01T00:00:00.000002") ("c") ("k")).event_cid := by
  decide

/-- C1 (amended): when the two wall-clock readings inside `create`
coincide (time held fixed), recomputing the canonical serialization and
its SHA-256 hash from the stored field values reproduces the stored
`event_cid`. -/
theorem recompute_from_stored_fields_roundtrip (p : JObj) (tier : CimTier) (n : String)
    (prev : Option Cid) (corr : Option CorrelationId) (caus : Option CausationId)
    (t fc fk : String) :
    recomputeCid (CimEvent.create p tier n prev corr caus t t fc fk) =
      (CimEvent.create p tier n prev corr caus t t fc fk).event_cid := rfl

end CimNet
